import Mathlib

/-!
Verification of the payroll/KPI aggregation logic of the NFM facility-management
application (`nfm_pages/payroll.py`, `nfm_pages/invoices.py`, `nfm_pages/kpi.py`,
`nfm_pages/attendance.py`, `nfm_pages/salary_slips.py`, `nfm_pages/sla.py`).

Python floats and SQL numerics are modelled as exact rationals (ℚ); Python's
built-in banker rounding `round(x, n)` is modelled by `roundHalfEven`.
Database rows are lists of structures; the SQL `LEFT JOIN … GROUP BY … ORDER BY`
aggregations are modelled as explicit filter/sum/sort list computations.
Worker codes are modelled as naturals (the source stores zero-padded text codes,
whose lexicographic order coincides with the numeric order).
-/

namespace NFM

/-- Worker status column: `workers.status ∈ {'Active', 'Inactive'}`. -/
inductive WStatus where
  | Active
  | Inactive
deriving DecidableEq

/-- Attendance status column: `attendance.status ∈ {'Present','Absent','Leave','Off'}`. -/
inductive AttStatus where
  | Present
  | Absent
  | Leave
  | Off
deriving DecidableEq

/-- Work-order status column: `work_orders.status`. -/
inductive WoStatus where
  | Open
  | InProgress
  | Completed
  | Closed
deriving DecidableEq

/-- A row of the `workers` table (the columns the aggregation reads). -/
structure Worker where
  id : Nat
  worker_code : Nat
  salary : ℚ
  status : WStatus
deriving DecidableEq

/-- A row of the `attendance` table (the columns the aggregation reads). -/
structure AttRow where
  worker_id : Nat
  att_date : Nat
  status : AttStatus
  hours_worked : ℚ
  overtime_hours : ℚ
deriving DecidableEq

/-- A row of the `work_orders` table as loaded by `kpi._load_work_orders` /
`sla._load_work_orders` (assigned worker and status, with the request date
used by the `requested_at::date BETWEEN %s AND %s` filter). -/
structure WoRow where
  worker_id : Nat
  requested_date : Nat
  status : WoStatus
deriving DecidableEq

/-- A row of the `fleet_timesheet` table as loaded by `kpi._load_fleet`. -/
structure FleetRow where
  worker_id : Nat
  used_date : Nat
  hours_used : ℚ
deriving DecidableEq

/-- Python's `round` to an integer: round-half-to-even (banker rounding),
modelling `round(x, 0)` / `round(x)` on the exact rational value. -/
def roundHalfEven (q : ℚ) : ℤ :=
  if q - ⌊q⌋ < 1 / 2 then ⌊q⌋
  else if 1 / 2 < q - ⌊q⌋ then ⌊q⌋ + 1
  else if 2 ∣ ⌊q⌋ then ⌊q⌋ else ⌊q⌋ + 1

/-- Python's `round(x, 1)`: round to one decimal place, half to even. -/
def pyRound1 (q : ℚ) : ℚ :=
  (roundHalfEven (q * 10) : ℚ) / 10

/-- Function `payroll.compute_pay` (payroll.py lines 77–94): given a row's salary and the
aggregated `total_hours` / `total_ot`, return `(basic_pay, ot_pay, total_pay)`.
Rule from the source: 26 working days × 8 hours per month; hourly rate =
salary / (26*8); OT paid ×1. -/
def compute_pay (salary total_hours total_ot : ℚ) : ℚ × ℚ × ℚ :=
  if salary ≤ 0 then (0, 0, 0)
  else
    let hourly_rate := salary / (26 * 8)
    let basic_pay := hourly_rate * total_hours
    let ot_pay := hourly_rate * total_ot
    let total_pay := basic_pay + ot_pay
    (basic_pay, ot_pay, total_pay)

/-- Function `invoices.compute_row_pay` (invoices.py lines 59–70): the per-row pay
computation of the invoice labour-total, same rule as `payroll.compute_pay`. -/
def compute_row_pay (salary total_hours total_ot : ℚ) : ℚ × ℚ × ℚ :=
  if salary ≤ 0 then (0, 0, 0)
  else
    let hourly_rate := salary / (26 * 8)
    let basic_pay := hourly_rate * total_hours
    let ot_pay := hourly_rate * total_ot
    let total := basic_pay + ot_pay
    (basic_pay, ot_pay, total)

/-- The attendance rows joined to worker id `wid` inside the period, as in the
SQL `LEFT JOIN attendance a ON w.id = a.worker_id AND a.att_date BETWEEN s AND e`. -/
def attInRange (att : List AttRow) (wid s e : Nat) : List AttRow :=
  att.filter (fun a => a.worker_id = wid ∧ s ≤ a.att_date ∧ a.att_date ≤ e)

/-- One output row of the payroll / attendance-summary / invoice-labour SQL
aggregation (worker identity columns plus the grouped counts and sums). -/
structure PayRow where
  worker_code : Nat
  salary : ℚ
  days_present : Nat
  days_absent : Nat
  days_leave : Nat
  total_hours : ℚ
  total_ot : ℚ
deriving DecidableEq

/-- The `GROUP BY` aggregation of the payroll SQL for one worker:
`COUNT(CASE WHEN a.status='Present' THEN 1 END)`, …,
`COALESCE(SUM(a.hours_worked),0)`, `COALESCE(SUM(a.overtime_hours),0)`
over the left-joined attendance rows in range (all statuses). -/
def payRowOf (att : List AttRow) (s e : Nat) (w : Worker) : PayRow :=
  let rows := attInRange att w.id s e
  { worker_code := w.worker_code
    salary := w.salary
    days_present := (rows.filter (fun a => a.status = AttStatus.Present)).length
    days_absent := (rows.filter (fun a => a.status = AttStatus.Absent)).length
    days_leave := (rows.filter (fun a => a.status = AttStatus.Leave)).length
    total_hours := (rows.map AttRow.hours_worked).sum
    total_ot := (rows.map AttRow.overtime_hours).sum }

/-- The payroll page's aggregation query (payroll.py lines 43–65): optional
`w.status='Active'` filter, `LEFT JOIN` + `GROUP BY` per worker,
`ORDER BY w.worker_code`. -/
def payrollQuery (workers : List Worker) (att : List AttRow) (s e : Nat)
    (only_active : Bool) : List PayRow :=
  let ws := if only_active then workers.filter (fun w => w.status = WStatus.Active)
            else workers
  (List.insertionSort (fun w1 w2 : Worker => w1.worker_code ≤ w2.worker_code) ws).map
    (payRowOf att s e)

/-- The rounding applied by the payroll page's render loop (payroll.py lines
96–108): `round(b, 0), round(o, 0), round(t, 0)` on the results of
`compute_pay`, producing `Basic_Pay_Est`, `OT_Pay_Est`, `Total_Pay_Est`. -/
def renderPay (row : PayRow) : ℤ × ℤ × ℤ :=
  let p := compute_pay row.salary row.total_hours row.total_ot
  (roundHalfEven p.1, roundHalfEven p.2.1, roundHalfEven p.2.2)

/-- The rounding applied by `invoices.compute_labour_total` (invoices.py lines
72–84): `round(b, 0), round(o, 0), round(t, 0)` on `compute_row_pay`. -/
def invoiceRenderPay (row : PayRow) : ℤ × ℤ × ℤ :=
  let p := compute_row_pay row.salary row.total_hours row.total_ot
  (roundHalfEven p.1, roundHalfEven p.2.1, roundHalfEven p.2.2)

/-- Function `kpi.calc_attendance_rate` (kpi.py lines 104–111): attendance percentage,
denominator `days_present + days_absent`, 0 when the denominator is 0. -/
def calc_attendance_rate (days_present days_absent : Nat) : ℚ :=
  let denom := days_present + days_absent
  if denom ≤ 0 then 0
  else (days_present : ℚ) / (denom : ℚ) * 100

/-- Function `kpi.calc_wo_close_rate` (kpi.py lines 133–136): work-order close rate. -/
def calc_wo_close_rate (wo_total wo_closed : Nat) : ℚ :=
  if wo_total ≤ 0 then 0
  else (wo_closed : ℚ) / (wo_total : ℚ) * 100

/-- Function `kpi.calc_scores` (kpi.py lines 161–187): the four sub-scores (each clamped
to [0,100]) and the weighted composite KPI rounded to one decimal.
Returns `(att_score, ot_score, wo_score, fleet_score, kpi_score)`. -/
def calc_scores (attendance_pct total_ot wo_close_pct fleet_hours : ℚ) :
    ℚ × ℚ × ℚ × ℚ × ℚ :=
  let att_score0 := attendance_pct
  let ot_score0 := if 0 < total_ot then min total_ot 40 / 40 * 100 else 0
  let wo_score0 := wo_close_pct
  let fleet_score0 := if 0 < fleet_hours then min fleet_hours 60 / 60 * 100 else 0
  let att_score := max 0 (min 100 att_score0)
  let ot_score := max 0 (min 100 ot_score0)
  let wo_score := max 0 (min 100 wo_score0)
  let fleet_score := max 0 (min 100 fleet_score0)
  let kpi := att_score * 0.4 + ot_score * 0.2 + wo_score * 0.2 + fleet_score * 0.2
  (att_score, ot_score, wo_score, fleet_score, pyRound1 kpi)

/-- Helper: `⌊q⌋ ≤ n` whenever `q ≤ n`. -/
lemma floor_le_int (q : ℚ) (n : ℤ) (h : q ≤ (n : ℚ)) : ⌊q⌋ ≤ n := by
  have := Int.floor_mono h
  rwa [Int.floor_intCast] at this

/-- Banker's rounding of a non-negative rational is non-negative. -/
lemma roundHalfEven_nonneg (q : ℚ) (h : 0 ≤ q) : 0 ≤ roundHalfEven q := by
  unfold roundHalfEven
  have hf : (0 : ℤ) ≤ ⌊q⌋ := Int.le_floor.mpr (by exact_mod_cast h)
  split_ifs <;> omega

/-- Banker's rounding never exceeds an integer upper bound of its argument. -/
lemma roundHalfEven_le (q : ℚ) (n : ℤ) (h : q ≤ (n : ℚ)) : roundHalfEven q ≤ n := by
  unfold roundHalfEven
  have hfl : ⌊q⌋ ≤ n := floor_le_int q n h
  have hle : (⌊q⌋ : ℚ) ≤ q := Int.floor_le q
  split_ifs with h1 h2 h3
  · exact hfl
  · have hq : (⌊q⌋ : ℚ) + 1 / 2 ≤ q := by linarith
    have : (⌊q⌋ : ℚ) < (n : ℚ) := by linarith
    have : ⌊q⌋ < n := by exact_mod_cast this
    omega
  · exact hfl
  · have h2' : 1 / 2 ≤ q - ⌊q⌋ := le_of_not_lt h1
    have hq : (⌊q⌋ : ℚ) + 1 / 2 ≤ q := by linarith
    have : (⌊q⌋ : ℚ) < (n : ℚ) := by linarith
    have : ⌊q⌋ < n := by exact_mod_cast this
    omega

/-- Helper: `pyRound1` of a non-negative rational is non-negative. -/
lemma pyRound1_nonneg (q : ℚ) (h : 0 ≤ q) : 0 ≤ pyRound1 q := by
  unfold pyRound1
  have : (0 : ℤ) ≤ roundHalfEven (q * 10) := roundHalfEven_nonneg _ (by linarith)
  have : (0 : ℚ) ≤ (roundHalfEven (q * 10) : ℚ) := by exact_mod_cast this
  positivity

/-- Helper: `pyRound1` respects the upper bound 100. -/
lemma pyRound1_le_100 (q : ℚ) (h : q ≤ 100) : pyRound1 q ≤ 100 := by
  unfold pyRound1
  have h1 : roundHalfEven (q * 10) ≤ (1000 : ℤ) :=
    roundHalfEven_le _ _ (by push_cast; linarith)
  have h2 : (roundHalfEven (q * 10) : ℚ) ≤ 1000 := by exact_mod_cast h1
  linarith

/-- C2: the composite KPI is `0.4·attendanceScore + 0.2·overtimeScore +
0.2·workOrderScore + 0.2·fleetScore` on the clamped sub-scores, rounded to one
decimal; every returned sub-score is clamped to `[0, 100]`, and the resulting
`kpi_score` lies in `[0, 100]` (for all inputs, in particular non-negative ones). -/
theorem C2_kpi_composite (att tot wo fl : ℚ) :
    (calc_scores att tot wo fl).2.2.2.2 =
      pyRound1 (0.4 * (calc_scores att tot wo fl).1 +
        0.2 * (calc_scores att tot wo fl).2.1 +
        0.2 * (calc_scores att tot wo fl).2.2.1 +
        0.2 * (calc_scores att tot wo fl).2.2.2.1) ∧
    (0 ≤ (calc_scores att tot wo fl).1 ∧ (calc_scores att tot wo fl).1 ≤ 100) ∧
    (0 ≤ (calc_scores att tot wo fl).2.1 ∧ (calc_scores att tot wo fl).2.1 ≤ 100) ∧
    (0 ≤ (calc_scores att tot wo fl).2.2.1 ∧ (calc_scores att tot wo fl).2.2.1 ≤ 100) ∧
    (0 ≤ (calc_scores att tot wo fl).2.2.2.1 ∧ (calc_scores att tot wo fl).2.2.2.1 ≤ 100) ∧
    0 ≤ (calc_scores att tot wo fl).2.2.2.2 ∧ (calc_scores att tot wo fl).2.2.2.2 ≤ 100 := by
  have hclamp_lo : ∀ x : ℚ, 0 ≤ max 0 (min 100 x) := fun x => le_max_left 0 _
  have hclamp_hi : ∀ x : ℚ, max 0 (min 100 x) ≤ 100 :=
    fun x => max_le (by norm_num) (min_le_left _ _)
  simp only [calc_scores]
  refine ⟨?_, ⟨hclamp_lo _, hclamp_hi _⟩, ⟨hclamp_lo _, hclamp_hi _⟩,
    ⟨hclamp_lo _, hclamp_hi _⟩, ⟨hclamp_lo _, hclamp_hi _⟩, ?_, ?_⟩
  · exact congrArg pyRound1 (by ring)
  · exact pyRound1_nonneg _ (by
      have h1 := hclamp_lo att
      have h2 := hclamp_lo (if 0 < tot then min tot 40 / 40 * 100 else 0)
      have h3 := hclamp_lo wo
      have h4 := hclamp_lo (if 0 < fl then min fl 60 / 60 * 100 else 0)
      nlinarith)
  · exact pyRound1_le_100 _ (by
      have h1 := hclamp_hi att
      have h2 := hclamp_hi (if 0 < tot then min tot 40 / 40 * 100 else 0)
      have h3 := hclamp_hi wo
      have h4 := hclamp_hi (if 0 < fl then min fl 60 / 60 * 100 else 0)
      nlinarith)

/-- One output row of `kpi._build_kpi_df` (the aggregated attendance columns,
work-order and fleet columns, and the five scores). -/
structure KpiRow where
  worker_id : Nat
  worker_code : Nat
  days_present : Nat
  days_absent : Nat
  days_leave : Nat
  total_hours : ℚ
  total_ot : ℚ
  attendance_pct : ℚ
  wo_total : Nat
  wo_closed : Nat
  wo_close_pct : ℚ
  fleet_hours : ℚ
  att_score : ℚ
  ot_score : ℚ
  wo_score : ℚ
  fleet_score : ℚ
  kpi_score : ℚ
deriving DecidableEq

/-- The per-worker aggregation of `kpi._build_kpi_df` (kpi.py lines 64–192):
group the left-joined attendance rows, count statuses, sum hours; per-worker
work-order totals (`wo_total`, `wo_closed` counting Completed/Closed) and fleet
hours; then `calc_attendance_rate`, `calc_wo_close_rate` and `calc_scores`.
The `wo` and `fleet` lists are the period-filtered loads of
`_load_work_orders` / `_load_fleet`. -/
def kpiAggRow (att : List AttRow) (wo : List WoRow) (fleet : List FleetRow)
    (s e : Nat) (w : Worker) : KpiRow :=
  let rows := attInRange att w.id s e
  let days_present := (rows.filter (fun a => a.status = AttStatus.Present)).length
  let days_absent := (rows.filter (fun a => a.status = AttStatus.Absent)).length
  let days_leave := (rows.filter (fun a => a.status = AttStatus.Leave)).length
  let total_hours := (rows.map AttRow.hours_worked).sum
  let total_ot := (rows.map AttRow.overtime_hours).sum
  let attendance_pct := calc_attendance_rate days_present days_absent
  let wos := wo.filter (fun r => r.worker_id = w.id)
  let wo_total := wos.length
  let wo_closed := (wos.filter (fun r =>
    r.status = WoStatus.Completed ∨ r.status = WoStatus.Closed)).length
  let wo_close_pct := calc_wo_close_rate wo_total wo_closed
  let fleet_hours := ((fleet.filter (fun r => r.worker_id = w.id)).map FleetRow.hours_used).sum
  let sc := calc_scores attendance_pct total_ot wo_close_pct fleet_hours
  { worker_id := w.id
    worker_code := w.worker_code
    days_present := days_present
    days_absent := days_absent
    days_leave := days_leave
    total_hours := total_hours
    total_ot := total_ot
    attendance_pct := attendance_pct
    wo_total := wo_total
    wo_closed := wo_closed
    wo_close_pct := wo_close_pct
    fleet_hours := fleet_hours
    att_score := sc.1
    ot_score := sc.2.1
    wo_score := sc.2.2.1
    fleet_score := sc.2.2.2.1
    kpi_score := sc.2.2.2.2 }

/-- Function `kpi._build_kpi_df` (kpi.py lines 64–197): Active workers only (the
`WHERE w.status = 'Active'` of `_load_attendance`), grouped per worker (pandas
`groupby` orders groups by the `worker_id` key), scored, and finally
`sort_values("kpi_score", ascending=False)`. -/
def build_kpi_df (workers : List Worker) (att : List AttRow) (wo : List WoRow)
    (fleet : List FleetRow) (s e : Nat) : List KpiRow :=
  let ws := workers.filter (fun w => w.status = WStatus.Active)
  let agg := (List.insertionSort (fun w1 w2 : Worker => w1.id ≤ w2.id) ws).map
    (kpiAggRow att wo fleet s e)
  List.insertionSort (fun r1 r2 : KpiRow => r2.kpi_score ≤ r1.kpi_score) agg

/-- C7: `attendanceScore = daysPresent / (daysPresent + daysAbsent) × 100`,
0 when the denominator is 0, 100 when `daysAbsent = 0 < daysPresent`;
leave rows change neither the numerator nor the denominator (appending a
Leave-status attendance row leaves `attendance_pct` unchanged). -/
theorem C7_attendance_score (p a : Nat) (att : List AttRow) (wo : List WoRow)
    (fleet : List FleetRow) (s e d : Nat) (hw ot : ℚ) (w : Worker) :
    calc_attendance_rate p a =
      (if p + a = 0 then (0 : ℚ) else (p : ℚ) / ((p : ℚ) + (a : ℚ)) * 100) ∧
    calc_attendance_rate 0 0 = 0 ∧
    calc_attendance_rate p 0 = (if p = 0 then (0 : ℚ) else 100) ∧
    (kpiAggRow (att ++ [⟨w.id, d, AttStatus.Leave, hw, ot⟩]) wo fleet s e w).attendance_pct
      = (kpiAggRow att wo fleet s e w).attendance_pct := by
  refine ⟨?_, by simp [calc_attendance_rate], ?_, ?_⟩
  · by_cases h : p + a = 0
    · simp [calc_attendance_rate, h, Nat.le_zero]
    · have : ¬ (p + a ≤ 0) := by omega
      simp only [calc_attendance_rate, this, if_neg, if_false, h]
      push_cast
      ring
  · by_cases h : p = 0
    · simp [calc_attendance_rate, h]
    · have hle : ¬ (p + 0 ≤ 0) := by omega
      simp only [calc_attendance_rate, hle, if_false, if_neg h]
      rw [Nat.add_zero]
      have hp : (p : ℚ) ≠ 0 := Nat.cast_ne_zero.mpr h
      rw [div_self hp, one_mul]
  · have hsplit : attInRange (att ++ [⟨w.id, d, AttStatus.Leave, hw, ot⟩]) w.id s e
        = attInRange att w.id s e ++
          attInRange [⟨w.id, d, AttStatus.Leave, hw, ot⟩] w.id s e := by
      simp [attInRange, List.filter_append]
    simp only [kpiAggRow, hsplit, List.filter_append, List.length_append]
    have hP : (attInRange [⟨w.id, d, AttStatus.Leave, hw, ot⟩] w.id s e).filter
        (fun a => a.status = AttStatus.Present) = [] := by
      simp only [attInRange]
      by_cases hr : s ≤ d ∧ d ≤ e <;> simp [hr]
    have hA : (attInRange [⟨w.id, d, AttStatus.Leave, hw, ot⟩] w.id s e).filter
        (fun a => a.status = AttStatus.Absent) = [] := by
      simp only [attInRange]
      by_cases hr : s ≤ d ∧ d ≤ e <;> simp [hr]
    rw [hP, hA]
    simp

/-- C8: `overtimeScore = min(totalOvertimeHours, 40) / 40 × 100` for any
non-negative overtime total; it is 100 for any total ≥ 40 and linear below the
cap, in particular 20 hours yield a score of 50. -/
theorem C8_overtime_score (att tot wo fl : ℚ) (h : 0 ≤ tot) :
    (calc_scores att tot wo fl).2.1 = min tot 40 / 40 * 100 ∧
    (calc_scores att tot wo fl).2.1 =
      (if 40 ≤ tot then (100 : ℚ) else tot / 40 * 100) ∧
    (calc_scores att 20 wo fl).2.1 = 50 := by
  have key : (calc_scores att tot wo fl).2.1 = min tot 40 / 40 * 100 := by
    simp only [calc_scores]
    rcases eq_or_lt_of_le h with h0 | h0
    · rw [if_neg (by rw [← h0]; exact lt_irrefl 0)]
      rw [← h0]
      norm_num
    · rw [if_pos h0]
      have hmin0 : 0 ≤ min tot 40 := le_min (le_of_lt h0) (by norm_num)
      have hmin40 : min tot 40 ≤ 40 := min_le_right tot 40
      have hlo : (0 : ℚ) ≤ min tot 40 / 40 * 100 :=
        mul_nonneg (div_nonneg hmin0 (by norm_num)) (by norm_num)
      have hhi : min tot 40 / 40 * 100 ≤ 100 := by linarith
      rw [min_eq_right hhi, max_eq_right hlo]
  refine ⟨key, ?_, ?_⟩
  · rw [key]
    by_cases h40 : 40 ≤ tot
    · rw [if_pos h40, min_eq_right h40]
      norm_num
    · rw [if_neg h40, min_eq_left (le_of_lt (lt_of_not_le h40))]
  · simp only [calc_scores]
    norm_num

/-- Witness for C8 at `totalOvertimeHours = 20`. -/
theorem C8_overtime_score_witness : (calc_scores 0 20 0 0).2.1 = 50 :=
  (C8_overtime_score 0 20 0 0 (by norm_num)).2.2

/-- C1: for every worker row, if `salary ≤ 0` the pay triple is `(0,0,0)`
regardless of the attendance totals; otherwise `hourlyRate = salary / 208`
(= salary / (26×8), independent of the period), `basicPay = hourlyRate ×
totalHours`, `otPay = hourlyRate × totalOvertimeHours` (×1 rate) and
`totalPay = basicPay + otPay`; the invoice page's `compute_row_pay` is the
same function. -/
theorem C1_pay_formula (salary total_hours total_ot : ℚ) :
    compute_pay salary total_hours total_ot =
      (if salary ≤ 0 then ((0 : ℚ), (0 : ℚ), (0 : ℚ))
       else (salary / 208 * total_hours, salary / 208 * total_ot,
             salary / 208 * total_hours + salary / 208 * total_ot)) ∧
    compute_row_pay salary total_hours total_ot =
      compute_pay salary total_hours total_ot := by
  constructor
  · by_cases h : salary ≤ 0
    · simp [compute_pay, h]
    · simp only [compute_pay, h, if_false]
      norm_num
  · rfl

/-- The salary computation of `salary_slips._generate_slip` (salary_slips.py
lines 121–130): basic = the full monthly salary, OT rate = salary / 26 / 8
(when salary > 0), OT amount = total_ot × rate, gross = basic + OT amount.
Returns `(basic, ot_amount, gross)`. -/
def generate_slip_pay (salary total_ot : ℚ) : ℚ × ℚ × ℚ :=
  let basic := salary
  let ot_rate := if 0 < basic then basic / 26 / 8 else 0
  let ot_amount := total_ot * ot_rate
  let gross := basic + ot_amount
  (basic, ot_amount, gross)

/-- The write-time zeroing of `attendance.render` (attendance.py lines 143–149):
when the selected status is not Present, the saved `hours_worked` and
`overtime_hours` are 0. Returns `(hours_to_save, ot_to_save)`. -/
def hours_to_save (status : AttStatus) (hours_worked overtime_hours : ℚ) : ℚ × ℚ :=
  if status ≠ AttStatus.Present then (0, 0)
  else (hours_worked, overtime_hours)

/-- C5 (confirmed): the three pay figures are rounded only at output; in
particular the output `Total_Pay_Est` is the rounding of the exact
(unrounded) `basicPay + otPay`, where the unrounded values are the exact
products `hourlyRate × hours`; the invoice page rounds identically. -/
theorem C5_rounded_at_output (row : PayRow) (h : 0 < row.salary) :
    renderPay row =
      (roundHalfEven (row.salary / 208 * row.total_hours),
       roundHalfEven (row.salary / 208 * row.total_ot),
       roundHalfEven (row.salary / 208 * row.total_hours +
         row.salary / 208 * row.total_ot)) ∧
    invoiceRenderPay row = renderPay row := by
  constructor
  · simp only [renderPay, compute_pay, if_neg (not_le.mpr h)]
    norm_num
  · rfl

/-- Witness for C5: salary 100, 5 hours, 3 OT hours; the rounded figures are
(2, 1, 4): note 4 = round(125/52 + 75/52) differs from round(125/52) +
round(75/52) = 3, so the total is indeed rounded from the unrounded sum. -/
theorem C5_rounded_at_output_witness :
    renderPay ⟨1, 100, 0, 0, 0, 5, 3⟩ = (2, 1, 4) := by
  rw [(C5_rounded_at_output ⟨1, 100, 0, 0, 0, 5, 3⟩ (by norm_num)).1]
  norm_num [roundHalfEven]

/-- Counterexample to C4: for a worker with salary 208 and zero hours in the
period, the salary slip reports basic = 208 and gross = 208, while the payroll
formula gives basicPay = otPay = totalPay = 0. -/
theorem C4_counterexample :
    generate_slip_pay 208 0 = (208, 0, 208) ∧
    compute_pay 208 0 0 = (0, 0, 0) ∧
    generate_slip_pay 208 0 ≠ compute_pay 208 0 0 := by
  refine ⟨by norm_num [generate_slip_pay], by norm_num [compute_pay], ?_⟩
  norm_num [generate_slip_pay, compute_pay, Prod.ext_iff]

/-- C4 as amended: the slip's OT pay equals the payroll formula's
`otPay = (salary/208) × totalOvertimeHours` (same 1.0× rate), but the slip's
basic pay is the full monthly salary independent of `totalHours`, so its gross
is `salary + otPay`, which coincides with the payroll `totalPay` exactly when
`totalHours = 208`. -/
theorem C4_amended (salary total_hours total_ot : ℚ) (h : 0 < salary) :
    (generate_slip_pay salary total_ot).1 = salary ∧
    (generate_slip_pay salary total_ot).2.1 =
      (compute_pay salary total_hours total_ot).2.1 ∧
    (generate_slip_pay salary total_ot).2.2 = salary + salary / 208 * total_ot ∧
    (generate_slip_pay salary total_ot).2.2 =
      (compute_pay salary 208 total_ot).2.2 := by
  have hns : ¬ (salary ≤ 0) := not_le.mpr h
  refine ⟨rfl, ?_, ?_, ?_⟩
  · simp only [generate_slip_pay, compute_pay, if_pos h, if_neg hns]
    ring
  · simp only [generate_slip_pay, if_pos h]
    ring
  · simp only [generate_slip_pay, compute_pay, if_pos h, if_neg hns]
    field_simp
    ring

/-- Witness for C4's amended claim at salary 416000, 100 hours, 10 OT hours. -/
theorem C4_amended_witness :
    (generate_slip_pay 416000 10).2.1 = (compute_pay 416000 100 10).2.1 ∧
    (generate_slip_pay 416000 10).2.2 = (compute_pay 416000 208 10).2.2 := by
  have h := C4_amended 416000 100 10 (by norm_num)
  exact ⟨h.2.1, h.2.2.2⟩

/-- Counterexample to C3: a stored Absent row with `hours_worked = 8` for a
worker with salary 208 (hourly rate 1). The aggregation reports
`total_hours = 8` and pays `(8, 0, 8)` — the stored non-Present hours are NOT
zeroed out for the pay computation (the Present-only hour total is 0, and the
pay is not `(0,0,0)`). -/
theorem C3_counterexample :
    (payRowOf [⟨1, 5, AttStatus.Absent, 8, 0⟩] 1 30 ⟨1, 1, 208, WStatus.Active⟩).total_hours
      = 8 ∧
    renderPay (payRowOf [⟨1, 5, AttStatus.Absent, 8, 0⟩] 1 30 ⟨1, 1, 208, WStatus.Active⟩)
      = (8, 0, 8) ∧
    (((attInRange [⟨1, 5, AttStatus.Absent, 8, 0⟩] 1 1 30).filter
        (fun r => r.status = AttStatus.Present)).map AttRow.hours_worked).sum = 0 ∧
    renderPay (payRowOf [⟨1, 5, AttStatus.Absent, 8, 0⟩] 1 30 ⟨1, 1, 208, WStatus.Active⟩)
      ≠ (0, 0, 0) := by
  have hrow : payRowOf [⟨1, 5, AttStatus.Absent, 8, 0⟩] 1 30 ⟨1, 1, 208, WStatus.Active⟩
      = ⟨1, 208, 0, 1, 0, 8, 0⟩ := by
    simp [payRowOf, attInRange]
  have hpay : renderPay (payRowOf [⟨1, 5, AttStatus.Absent, 8, 0⟩] 1 30
      ⟨1, 1, 208, WStatus.Active⟩) = (8, 0, 8) := by
    rw [hrow]
    simp only [renderPay, compute_pay]
    norm_num [roundHalfEven]
  refine ⟨by rw [hrow], hpay, by simp [attInRange], ?_⟩
  rw [hpay]
  simp

/-- C3 as amended: the zeroing of non-Present hours is a write-time convention
(the attendance entry page saves `hours_worked = overtime_hours = 0` whenever
status ≠ Present); the aggregation then uses the stored sums unchanged, for the
raw `total_hours` / `total_ot` columns AND for the pay computation alike. -/
theorem C3_amended (status : AttStatus) (hw ot : ℚ) (att : List AttRow)
    (s e : Nat) (w : Worker) :
    hours_to_save status hw ot =
      (if status = AttStatus.Present then (hw, ot) else (0, 0)) ∧
    (payRowOf att s e w).total_hours =
      ((attInRange att w.id s e).map AttRow.hours_worked).sum ∧
    (payRowOf att s e w).total_ot =
      ((attInRange att w.id s e).map AttRow.overtime_hours).sum ∧
    renderPay (payRowOf att s e w) =
      (roundHalfEven (compute_pay w.salary
          ((attInRange att w.id s e).map AttRow.hours_worked).sum
          ((attInRange att w.id s e).map AttRow.overtime_hours).sum).1,
       roundHalfEven (compute_pay w.salary
          ((attInRange att w.id s e).map AttRow.hours_worked).sum
          ((attInRange att w.id s e).map AttRow.overtime_hours).sum).2.1,
       roundHalfEven (compute_pay w.salary
          ((attInRange att w.id s e).map AttRow.hours_worked).sum
          ((attInRange att w.id s e).map AttRow.overtime_hours).sum).2.2) := by
  refine ⟨?_, rfl, rfl, rfl⟩
  by_cases hst : status = AttStatus.Present
  · simp [hours_to_save, hst]
  · simp [hours_to_save, hst]

/-- The KPI page entry (kpi.py lines 211–229): if the selected start date is
after the end date, an error is shown and the page returns before any load or
aggregation; otherwise the KPI dataframe is built from the period loads. -/
def kpiRender (start_date end_date : Nat) (workers : List Worker)
    (att : List AttRow) (wo : List WoRow) (fleet : List FleetRow) :
    Except String (List KpiRow) :=
  if start_date > end_date then Except.error ("Start date cannot be after End date.")
  else Except.ok (build_kpi_df workers att
    (wo.filter (fun r => start_date ≤ r.requested_date ∧ r.requested_date ≤ end_date))
    (fleet.filter (fun r => start_date ≤ r.used_date ∧ r.used_date ≤ end_date))
    start_date end_date)

/-- The SLA page entry (sla.py lines 100–113): same guard, then the period's
work orders are loaded. -/
def slaRender (start_date end_date : Nat) (wos : List WoRow) :
    Except String (List WoRow) :=
  if start_date > end_date then Except.error ("Start date cannot be after End date.")
  else Except.ok (wos.filter
    (fun r => start_date ≤ r.requested_date ∧ r.requested_date ≤ end_date))

/-- Helper: `roundHalfEven 0 = 0`. -/
lemma roundHalfEven_zero : roundHalfEven 0 = 0 := by
  norm_num [roundHalfEven]

/-- C10: a request with `periodStart > periodEnd` is rejected with an error
before any aggregation, on both free-date-range pages (KPI and SLA); it is not
silently turned into an empty success result. -/
theorem C10_invalid_range_rejected (start_date end_date : Nat)
    (workers : List Worker) (att : List AttRow) (wo : List WoRow)
    (fleet : List FleetRow) (wos : List WoRow) (h : end_date < start_date) :
    kpiRender start_date end_date workers att wo fleet =
      Except.error ("Start date cannot be after End date.") ∧
    slaRender start_date end_date wos =
      Except.error ("Start date cannot be after End date.") := by
  constructor
  · simp [kpiRender, h]
  · simp [slaRender, h]

/-- Witness for C10 at the range 2 → 1. -/
theorem C10_invalid_range_rejected_witness :
    kpiRender 2 1 [] [] [] [] = Except.error ("Start date cannot be after End date.") ∧
    slaRender 2 1 [] = Except.error ("Start date cannot be after End date.") :=
  C10_invalid_range_rejected 2 1 [] [] [] [] [] (by norm_num)

/-- C9: a roster worker with no attendance rows in the period still yields an
output row (the aggregation left-joins the roster), with all day counts and raw
totals 0 and all three rounded pay figures 0. -/
theorem C9_no_attendance_row_kept (workers : List Worker) (att : List AttRow)
    (s e : Nat) (only_active : Bool) (w : Worker) (hmem : w ∈ workers)
    (hact : only_active = true → w.status = WStatus.Active)
    (hno : ∀ a ∈ att, ¬ (a.worker_id = w.id ∧ s ≤ a.att_date ∧ a.att_date ≤ e)) :
    payRowOf att s e w ∈ payrollQuery workers att s e only_active ∧
    payRowOf att s e w = ⟨w.worker_code, w.salary, 0, 0, 0, 0, 0⟩ ∧
    renderPay (payRowOf att s e w) = (0, 0, 0) := by
  have hempty : attInRange att w.id s e = [] := by
    rw [attInRange, List.filter_eq_nil_iff]
    intro a ha
    simpa using hno a ha
  have hrow : payRowOf att s e w = ⟨w.worker_code, w.salary, 0, 0, 0, 0, 0⟩ := by
    simp [payRowOf, hempty]
  refine ⟨?_, hrow, ?_⟩
  · have hws : w ∈ (if only_active then
        workers.filter (fun w => w.status = WStatus.Active) else workers) := by
      cases honly : only_active with
      | false => simpa using hmem
      | true =>
        simp only [if_pos]
        exact List.mem_filter.mpr ⟨hmem, by simp [hact honly]⟩
    have hsorted : w ∈ List.insertionSort
        (fun w1 w2 : Worker => w1.worker_code ≤ w2.worker_code)
        (if only_active then workers.filter (fun w => w.status = WStatus.Active)
         else workers) := by
      rw [List.mem_insertionSort]
      exact hws
    exact List.mem_map_of_mem (payRowOf att s e) hsorted
  · rw [hrow]
    by_cases hs : w.salary ≤ 0
    · simp [renderPay, compute_pay, hs, roundHalfEven_zero]
    · simp [renderPay, compute_pay, hs, roundHalfEven_zero]

/-- Witness for C9: one Active worker, one attendance row dated outside the
period; the worker's all-zero row is still in the payroll output. -/
theorem C9_no_attendance_row_kept_witness :
    payRowOf [⟨1, 50, AttStatus.Present, 8, 2⟩] 1 30 ⟨1, 7, 100, WStatus.Active⟩ ∈
      payrollQuery [⟨1, 7, 100, WStatus.Active⟩] [⟨1, 50, AttStatus.Present, 8, 2⟩]
        1 30 true ∧
    payRowOf [⟨1, 50, AttStatus.Present, 8, 2⟩] 1 30 ⟨1, 7, 100, WStatus.Active⟩ =
      ⟨7, 100, 0, 0, 0, 0, 0⟩ ∧
    renderPay (payRowOf [⟨1, 50, AttStatus.Present, 8, 2⟩] 1 30
      ⟨1, 7, 100, WStatus.Active⟩) = (0, 0, 0) := by
  apply C9_no_attendance_row_kept
  · simp
  · intro _
    rfl
  · intro a ha
    simp only [List.mem_singleton] at ha
    subst ha
    intro hcon
    simp at hcon

instance workerCodeLeTotal : IsTotal Worker (fun w1 w2 : Worker => w1.worker_code ≤ w2.worker_code) :=
  ⟨fun a b => Nat.le_total a.worker_code b.worker_code⟩

instance workerCodeLeTrans : IsTrans Worker (fun w1 w2 : Worker => w1.worker_code ≤ w2.worker_code) :=
  ⟨fun _ _ _ h1 h2 => Nat.le_trans h1 h2⟩

instance workerIdLeTotal : IsTotal Worker (fun w1 w2 : Worker => w1.id ≤ w2.id) :=
  ⟨fun a b => Nat.le_total a.id b.id⟩

instance workerIdLeTrans : IsTrans Worker (fun w1 w2 : Worker => w1.id ≤ w2.id) :=
  ⟨fun _ _ _ h1 h2 => Nat.le_trans h1 h2⟩

instance kpiScoreGeTotal : IsTotal KpiRow (fun r1 r2 : KpiRow => r2.kpi_score ≤ r1.kpi_score) :=
  ⟨fun a b => le_total b.kpi_score a.kpi_score⟩

instance kpiScoreGeTrans : IsTrans KpiRow (fun r1 r2 : KpiRow => r2.kpi_score ≤ r1.kpi_score) :=
  ⟨fun _ _ _ h1 h2 => le_trans h2 h1⟩

/-- Helper: `pyRound1 0 = 0`. -/
lemma pyRound1_zero : pyRound1 0 = 0 := by
  norm_num [pyRound1, roundHalfEven]

/-- Helper: `pyRound1 40 = 40`. -/
lemma pyRound1_forty : pyRound1 40 = 40 := by
  norm_num [pyRound1, roundHalfEven]

/-- Counterexample to C6: two Active workers (codes 1 and 2); worker 2 has one
Present day, worker 1 none, so worker 2's KPI (40.0) exceeds worker 1's (0.0)
and the KPI page's output comes sorted by score descending: codes `[2, 1]`,
not ascending by worker code. -/
theorem C6_counterexample :
    (build_kpi_df [⟨1, 1, 0, WStatus.Active⟩, ⟨2, 2, 0, WStatus.Active⟩]
        [⟨2, 5, AttStatus.Present, 8, 0⟩] [] [] 1 30).map KpiRow.worker_code
      = [2, 1] ∧
    ¬ List.Sorted (fun x y : Nat => x ≤ y)
        ((build_kpi_df [⟨1, 1, 0, WStatus.Active⟩, ⟨2, 2, 0, WStatus.Active⟩]
          [⟨2, 5, AttStatus.Present, 8, 0⟩] [] [] 1 30).map KpiRow.worker_code) := by
  have hr1 : attInRange [⟨2, 5, AttStatus.Present, 8, 0⟩] 1 1 30 = [] := by
    simp [attInRange]
  have hr2 : attInRange [⟨2, 5, AttStatus.Present, 8, 0⟩] 2 1 30
      = [⟨2, 5, AttStatus.Present, 8, 0⟩] := by
    simp [attInRange]
  have hk1 : (kpiAggRow [⟨2, 5, AttStatus.Present, 8, 0⟩] [] [] 1 30
      ⟨1, 1, 0, WStatus.Active⟩).kpi_score = 0 := by
    simp only [kpiAggRow, hr1, List.filter_nil, List.length_nil, List.map_nil,
      List.sum_nil]
    norm_num [calc_attendance_rate, calc_wo_close_rate, calc_scores,
      min_def, max_def, pyRound1_zero]
  have hk2 : (kpiAggRow [⟨2, 5, AttStatus.Present, 8, 0⟩] [] [] 1 30
      ⟨2, 2, 0, WStatus.Active⟩).kpi_score = 40 := by
    have hP : ([⟨2, 5, AttStatus.Present, 8, 0⟩] : List AttRow).filter
        (fun a => a.status = AttStatus.Present) = [⟨2, 5, AttStatus.Present, 8, 0⟩] := by
      simp
    have hA : ([⟨2, 5, AttStatus.Present, 8, 0⟩] : List AttRow).filter
        (fun a => a.status = AttStatus.Absent) = [] := by
      simp
    simp only [kpiAggRow, hr2, hP, hA, List.filter_nil, List.length_cons,
      List.length_nil, List.map_nil, List.sum_nil]
    norm_num [calc_attendance_rate, calc_wo_close_rate, calc_scores,
      min_def, max_def, pyRound1_forty]
  have hmain : (build_kpi_df [⟨1, 1, 0, WStatus.Active⟩, ⟨2, 2, 0, WStatus.Active⟩]
      [⟨2, 5, AttStatus.Present, 8, 0⟩] [] [] 1 30).map KpiRow.worker_code = [2, 1] := by
    simp only [build_kpi_df]
    norm_num [List.insertionSort, List.orderedInsert, hk1, hk2]
    exact ⟨rfl, rfl⟩
  refine ⟨hmain, ?_⟩
  rw [hmain]
  simp [List.Sorted]

/-- C6 as amended: the payroll aggregation outputs one row per (filtered)
roster worker, ordered by worker code ascending with no further sort; the KPI
page's output, in contrast, is sorted by the derived `kpi_score` descending. -/
theorem C6_ordering (workers : List Worker) (att : List AttRow) (wo : List WoRow)
    (fleet : List FleetRow) (s e : Nat) (only_active : Bool) :
    List.Sorted (fun x y : Nat => x ≤ y)
      ((payrollQuery workers att s e only_active).map PayRow.worker_code) ∧
    (payrollQuery workers att s e only_active).length =
      (if only_active then workers.filter (fun w => w.status = WStatus.Active)
       else workers).length ∧
    List.Sorted (fun x y : ℚ => y ≤ x)
      ((build_kpi_df workers att wo fleet s e).map KpiRow.kpi_score) := by
  refine ⟨?_, ?_, ?_⟩
  · have hs := List.sorted_insertionSort
      (fun w1 w2 : Worker => w1.worker_code ≤ w2.worker_code)
      (if only_active then workers.filter (fun w => w.status = WStatus.Active)
       else workers)
    simp only [payrollQuery, List.map_map]
    rw [List.Sorted, List.pairwise_map]
    exact hs.imp (fun h => h)
  · simp only [payrollQuery, List.length_map, List.length_insertionSort]
  · have hs := List.sorted_insertionSort
      (fun r1 r2 : KpiRow => r2.kpi_score ≤ r1.kpi_score)
      ((List.insertionSort (fun w1 w2 : Worker => w1.id ≤ w2.id)
        (workers.filter (fun w => w.status = WStatus.Active))).map
        (kpiAggRow att wo fleet s e))
    simp only [build_kpi_df]
    rw [List.Sorted, List.pairwise_map]
    exact hs.imp (fun h => h)

end NFM
